import Mathlib

/-!
Verification of the rust-programming-language teaching snippets.

Shallow embedding of the five source files:
  - src/projects/rectangles/src/main.rs : struct Rectangle (u32 fields),
    method area, method can_hold
  - src/rectangles/src/main.rs          : an identical struct Rectangle and a
    free function area
  - src/projects/structures/src/main.rs : struct User, fn build_user, and a
    (broken, here corrected per the spec) field-mutation example
  - src/projects/enums/src/main.rs      : enum Message with four variants and a
    no-op method call
  - src/projects/restaurant/src/lib-bak.rs : nested modules of empty stub fns

Machine integers (u32, u64) are modelled as Nat; u32 multiplication, where
overflow matters, is taken modulo 2 ^ 32 (wrapping semantics). Effectful
no-op functions (empty Rust bodies) are modelled as state-passing functions
over an arbitrary state type: an empty body returns the state unchanged.
-/

namespace RustRepo

/-- Rectangle record from src/projects/rectangles/src/main.rs (the struct in
src/rectangles/src/main.rs is textually identical): two u32 fields, modelled
as Nat. Values produced by the program always fit in 32 bits. -/
structure Rectangle where
  width : Nat
  height : Nat
deriving DecidableEq, Repr

/-- Method Rectangle::area from src/projects/rectangles/src/main.rs:
`self.width * self.height` on u32, wrapping semantics modelled as
multiplication modulo 2 ^ 32. -/
def Rectangle.area (self : Rectangle) : Nat :=
  (self.width * self.height) % 2 ^ 32

/-- Method Rectangle::can_hold from src/projects/rectangles/src/main.rs:
`self.width > other.width && self.height > other.height`. -/
def Rectangle.can_hold (self other : Rectangle) : Bool :=
  decide (self.width > other.width) && decide (self.height > other.height)

/-- Free function area from src/rectangles/src/main.rs:
`rectangle.width * rectangle.height` on u32, wrapping semantics. -/
def area (rectangle : Rectangle) : Nat :=
  (rectangle.width * rectangle.height) % 2 ^ 32

/-- User record from src/projects/structures/src/main.rs: two String fields,
a u64 counter (modelled as Nat) and a Bool flag. -/
structure User where
  username : String
  email : String
  sign_in_count : Nat
  active : Bool
deriving DecidableEq, Repr

/-- Function build_user from src/projects/structures/src/main.rs. -/
def build_user (email : String) (username : String) : User :=
  { email := email
    username := username
    active := true
    sign_in_count := 1 }

/-- The immutable instance user_one_immutable constructed in
src/projects/structures/src/main.rs. -/
def user_one_immutable : User :=
  { email := "someone@example.com"
    username := "someusername123"
    active := true
    sign_in_count := 1 }

/-- The initial value of the mutable instance user_one_mutable constructed in
src/projects/structures/src/main.rs. -/
def user_one_mutable_init : User :=
  { email := "someone@example.com"
    username := "someusername123"
    active := true
    sign_in_count := 1 }

/-- Assignment `u.email = e` on a mutable User binding: value update of the
email field. -/
def set_email (u : User) (e : String) : User :=
  { u with email := e }

/-- Modelled from the spec: the corrected struct-mutation example of
src/projects/structures/src/main.rs. The source assigns to an unbound name
`user` and does not compile; the spec directs that the mutable instance be
bound as user_one_mutable before its email field is mutated. The corrected
program constructs the immutable instance and the mutable instance, then
assigns a new email to the mutable one. The result pairs the final value of
the immutable instance with the final value of the mutable instance. -/
def corrected_mutation_example : User × User :=
  let imm := user_one_immutable
  let mut0 := user_one_mutable_init
  let mut1 := set_email mut0 "anotheremail@example.com"
  (imm, mut1)

/-- Message enum from src/projects/enums/src/main.rs: four variants, with
i32 payloads modelled as Int and the String payload as String. -/
inductive Message where
  | Quit : Message
  | Move (x : Int) (y : Int) : Message
  | Write (s : String) : Message
  | ChangeColor (a : Int) (b : Int) (c : Int) : Message
deriving DecidableEq, Repr

/-- Method Message::call from src/projects/enums/src/main.rs: an empty body,
modelled as a state-passing function over an arbitrary external state type
that returns the state unchanged together with the unit value. -/
def Message.call {σ : Type} (_ : Message) (s : σ) : σ × Unit :=
  (s, ())

namespace front_of_house

namespace hosting

/-- Stub fn add_to_waitlist from src/projects/restaurant/src/lib-bak.rs:
empty body, modelled as the identity on any external state. -/
def add_to_waitlist {σ : Type} (s : σ) : σ × Unit := (s, ())

/-- Stub fn seat_at_table from src/projects/restaurant/src/lib-bak.rs. -/
def seat_at_table {σ : Type} (s : σ) : σ × Unit := (s, ())

end hosting

namespace serving

/-- Stub fn take_order from src/projects/restaurant/src/lib-bak.rs. -/
def take_order {σ : Type} (s : σ) : σ × Unit := (s, ())

/-- Stub fn serve_order from src/projects/restaurant/src/lib-bak.rs. -/
def serve_order {σ : Type} (s : σ) : σ × Unit := (s, ())

/-- Stub fn take_payment from src/projects/restaurant/src/lib-bak.rs. -/
def take_payment {σ : Type} (s : σ) : σ × Unit := (s, ())

end serving

end front_of_house

namespace back_of_house

namespace cooking

/-- Stub fn select_ingredients from src/projects/restaurant/src/lib-bak.rs. -/
def select_ingredients {σ : Type} (s : σ) : σ × Unit := (s, ())

/-- Stub fn cut_vegetables from src/projects/restaurant/src/lib-bak.rs. -/
def cut_vegetables {σ : Type} (s : σ) : σ × Unit := (s, ())

end cooking

namespace preparing

/-- Stub fn prepare_dish from src/projects/restaurant/src/lib-bak.rs. -/
def prepare_dish {σ : Type} (s : σ) : σ × Unit := (s, ())

end preparing

namespace cleaning

/-- Stub fn clean_dishes from src/projects/restaurant/src/lib-bak.rs. -/
def clean_dishes {σ : Type} (s : σ) : σ × Unit := (s, ())

/-- Stub fn clean_floor from src/projects/restaurant/src/lib-bak.rs. -/
def clean_floor {σ : Type} (s : σ) : σ × Unit := (s, ())

end cleaning

end back_of_house

/-- Claim C1: for every pair of rectangles a and b, can_hold a b returns true
if and only if a.width > b.width and a.height > b.height; the operation is a
total function with no error conditions. -/
theorem c1_can_hold_iff (a b : Rectangle) :
    Rectangle.can_hold a b = true ↔ a.width > b.width ∧ a.height > b.height := by
  simp [Rectangle.can_hold]

/-- Claim C1 witness: the property instantiated at concrete rectangles. -/
theorem c1_can_hold_iff_witness :
    Rectangle.can_hold ⟨30, 50⟩ ⟨10, 40⟩ = true ↔ (30 : Nat) > 10 ∧ (50 : Nat) > 40 :=
  c1_can_hold_iff ⟨30, 50⟩ ⟨10, 40⟩

/-- Claim C2 counterexample: the claim says area returns the mathematical
product of width and height even when that product exceeds 2 ^ 32, but u32
multiplication wraps: at width = 65536, height = 65536 the product is
2 ^ 32 = 4294967296 while area returns 0. -/
theorem c2_area_counterexample :
    Rectangle.area ⟨65536, 65536⟩ ≠ 65536 * 65536 := by decide

/-- Claim C2 (amended): for every rectangle, area returns the product of its
width and height reduced modulo 2 ^ 32; in particular it equals the exact
mathematical product whenever that product is below 2 ^ 32. No error
conditions and no side effects. -/
theorem c2_area_product (r : Rectangle) (h : r.width * r.height < 2 ^ 32) :
    Rectangle.area r = r.width * r.height := by
  simpa [Rectangle.area] using Nat.mod_eq_of_lt h

/-- Claim C2 witness: the amended property at the rectangle 30 by 50. -/
theorem c2_area_product_witness :
    (30 : Nat) * 50 < 2 ^ 32 ∧ Rectangle.area ⟨30, 50⟩ = 30 * 50 :=
  ⟨by decide, c2_area_product ⟨30, 50⟩ (by decide)⟩

/-- Claim C3: for every pair of text inputs email and username, build_user
returns a User record with active = true, sign_in_count = 1, and the email
and username fields equal to the given inputs unchanged. -/
theorem c3_build_user (email username : String) :
    (build_user email username).active = true ∧
      (build_user email username).sign_in_count = 1 ∧
      (build_user email username).email = email ∧
      (build_user email username).username = username := by
  refine ⟨rfl, rfl, rfl, rfl⟩

/-- Claim C4: for every rectangle r, can_hold r r returns false (containment
is strict on both dimensions). -/
theorem c4_can_hold_irrefl (r : Rectangle) :
    Rectangle.can_hold r r = false := by
  simp [Rectangle.can_hold]

/-- Claim C5: area applied to the rectangle with width 30 and height 50
returns 1500. -/
theorem c5_area_30_50 : Rectangle.area ⟨30, 50⟩ = 1500 := by decide

/-- Claim C6: in the corrected struct-mutation example, assigning a new email
to the mutable User instance leaves every field of the separately constructed
immutable User instance unchanged, while the mutable instance does receive
the new email (value-copy semantics: the two instances share no state). -/
theorem c6_mutation_frame :
    (corrected_mutation_example.1.email = "someone@example.com" ∧
        corrected_mutation_example.1.username = "someusername123" ∧
        corrected_mutation_example.1.active = true ∧
        corrected_mutation_example.1.sign_in_count = 1) ∧
      corrected_mutation_example.2.email = "anotheremail@example.com" := by
  refine ⟨⟨rfl, rfl, rfl, rfl⟩, rfl⟩

/-- Claim C7: for every Message value of each of the four variants, invoking
the call method returns normally with the unit value and leaves any external
state unchanged. -/
theorem c7_call_noop {σ : Type} (s : σ) (x y : Int) (str : String) (a b c : Int) :
    Message.call Message.Quit s = (s, ()) ∧
      Message.call (Message.Move x y) s = (s, ()) ∧
      Message.call (Message.Write str) s = (s, ()) ∧
      Message.call (Message.ChangeColor a b c) s = (s, ()) :=
  ⟨rfl, rfl, rfl, rfl⟩

/-- Claim C8: the Rectangle::area method of src/projects/rectangles and the
free function area of src/rectangles compute the same function on every
rectangle. -/
theorem c8_area_agree (r : Rectangle) : Rectangle.area r = area r := rfl

/-- Claim C9: every declared namespace stub function in the restaurant demo,
when invoked, returns immediately with the unit value and no observable
effect on any external state. -/
theorem c9_stubs_noop {σ : Type} (s : σ) :
    front_of_house.hosting.add_to_waitlist s = (s, ()) ∧
      front_of_house.hosting.seat_at_table s = (s, ()) ∧
      front_of_house.serving.take_order s = (s, ()) ∧
      front_of_house.serving.serve_order s = (s, ()) ∧
      front_of_house.serving.take_payment s = (s, ()) ∧
      back_of_house.cooking.select_ingredients s = (s, ()) ∧
      back_of_house.cooking.cut_vegetables s = (s, ()) ∧
      back_of_house.preparing.prepare_dish s = (s, ()) ∧
      back_of_house.cleaning.clean_dishes s = (s, ()) ∧
      back_of_house.cleaning.clean_floor s = (s, ()) :=
  ⟨rfl, rfl, rfl, rfl, rfl, rfl, rfl, rfl, rfl, rfl⟩

/-- Claim C10: can_hold is transitive: whenever can_hold a b and can_hold b c
both return true, so does can_hold a c. -/
theorem c10_can_hold_trans (a b c : Rectangle)
    (hab : Rectangle.can_hold a b = true)
    (hbc : Rectangle.can_hold b c = true) :
    Rectangle.can_hold a c = true := by
  simp only [Rectangle.can_hold, Bool.and_eq_true, decide_eq_true_eq] at *
  exact ⟨lt_trans hbc.1 hab.1, lt_trans hbc.2 hab.2⟩

/-- Claim C10 witness: transitivity applied at three concrete rectangles. -/
theorem c10_can_hold_trans_witness :
    Rectangle.can_hold ⟨3, 3⟩ ⟨2, 2⟩ = true ∧
      Rectangle.can_hold ⟨2, 2⟩ ⟨1, 1⟩ = true ∧
      Rectangle.can_hold ⟨3, 3⟩ ⟨1, 1⟩ = true :=
  ⟨by decide, by decide,
    c10_can_hold_trans ⟨3, 3⟩ ⟨2, 2⟩ ⟨1, 1⟩ (by decide) (by decide)⟩

end RustRepo
